import Mathlib

/-!
Shallow embedding of the chademo-rs CHAdeMO message layer
(src/error.rs, src/frames.rs, src/interface.rs, src/lib.rs).

Modelling conventions:
* Rust `u8`/`u16` values are `Nat`; where wrap-around or a bound matters it
  is stated as an explicit hypothesis or an explicit `% 256` / `% 65536`.
* The source stores a few quantities as `f32` (`target_battery_voltage`,
  `output_voltage`); those fields only ever hold values cast from `u16`
  (which `f32` represents exactly) and are only compared with `> 0.0` or
  cast back with `as u16`, so they are modelled as `Nat`.
* A Rust `panic!` / failed `assert!` (process abort) is modelled as `none`
  of an `Option`.
-/

/-- A CAN identifier: 11-bit standard or 29-bit extended
(mirrors `embedded_can::Id`). -/
inductive CanId where
| Standard (raw : Nat)
| Extended (raw : Nat)
deriving DecidableEq

/-- A CAN frame: identifier plus 0 to 8 data bytes (mirrors the
`ChademoCanFrame` test frame of `src/interface.rs`, whose `data()` yields
exactly the bytes the frame was built from). -/
structure CanFrame where
  id : CanId
  data : List Nat
deriving DecidableEq

/-- Mirrors `ChademoCanFrame::new`: accepts only a standard identifier and
at most 8 data bytes. -/
def CanFrame.new (id : CanId) (data : List Nat) : Option CanFrame :=
  match id with
  | CanId.Standard _ => if data.length ≤ 8 then some ⟨id, data⟩ else none
  | CanId.Extended _ => none

/-- Mirrors `interface::raw_to_id`; the source unwraps `StandardId::new`,
which succeeds for every identifier actually passed (all ≤ 0x7FF). -/
def raw_to_id (id : Nat) : CanId := CanId.Standard id

/-- Mirrors `src/error.rs` `ChademoError`. -/
inductive ChademoError where
| DecodeBadId (id : Nat)
| DecodeBadIdExt
deriving DecidableEq

deriving instance DecidableEq for Except

/-- Mirrors `interface::standard_id_to_raw`. -/
def standard_id_to_raw (id : CanId) : Except ChademoError Nat :=
  match id with
  | CanId.Standard raw => Except.ok raw
  | CanId.Extended _ => Except.error ChademoError.DecodeBadIdExt

/-- Mirrors `frames::get_bit`: `(byte & (1 << position)) != 0`. -/
def get_bit (byte position : Nat) : Bool :=
  byte &&& (1 <<< position) != 0

/-- Mirrors `u16::from_le_bytes([lo, hi])`. -/
def u16_from_le_bytes (lo hi : Nat) : Nat :=
  lo + 256 * hi

/-- Mirrors `u16::to_le_bytes`: low byte then high byte. -/
def u16_to_le_bytes (v : Nat) : Nat × Nat :=
  (v % 256, (v / 256) % 256)

/-- Mirrors `frames::data_sanity`: asserts the frame carries the expected
standard identifier and the expected payload length, returning the data
bytes; the source's assertion failure (panic) is `none` here. -/
def data_sanity (frame : CanFrame) (id : Nat) (dlc : Nat) : Option (List Nat) :=
  if frame.id = raw_to_id id ∧ frame.data.length = dlc then some frame.data else none

/-- Vehicle CAN frame `X100` (`src/frames.rs`). -/
structure X100 where
  minimum_charge_current : Nat
  minimum_battery_voltage : Nat
  maximum_battery_voltage : Nat
  constant_of_charging_rate_indication : Nat
deriving DecidableEq

/-- `Default` derive for `X100`. -/
def X100.default : X100 :=
  { minimum_charge_current := 0
    minimum_battery_voltage := 0
    maximum_battery_voltage := 0
    constant_of_charging_rate_indication := 0 }

/-- Mirrors `impl From<&T> for X100`. -/
def X100.fromFrame (frame : CanFrame) : Option X100 :=
  (data_sanity frame 0x100 8).map fun data =>
    { minimum_battery_voltage := u16_from_le_bytes (data.getD 2 0) (data.getD 3 0)
      maximum_battery_voltage := u16_from_le_bytes (data.getD 4 0) (data.getD 5 0)
      constant_of_charging_rate_indication := data.getD 6 0
      minimum_charge_current := data.getD 0 0 }

/-- Vehicle CAN frame `X101` (`src/frames.rs`). -/
structure X101 where
  max_charging_time_10s_bit : Nat
  max_charging_time_1min_bit : Nat
  estimated_charging_time : Nat
  rated_battery_capacity : Nat
deriving DecidableEq

/-- `Default` derive for `X101`. -/
def X101.default : X101 :=
  { max_charging_time_10s_bit := 0
    max_charging_time_1min_bit := 0
    estimated_charging_time := 0
    rated_battery_capacity := 0 }

/-- Mirrors `impl From<&T> for X101`. -/
def X101.fromFrame (frame : CanFrame) : Option X101 :=
  (data_sanity frame 0x101 8).map fun data =>
    { max_charging_time_10s_bit := data.getD 1 0
      max_charging_time_1min_bit := data.getD 2 0
      estimated_charging_time := data.getD 3 0
      rated_battery_capacity := u16_from_le_bytes (data.getD 5 0) (data.getD 6 0) }

/-- Vehicle fault flags of frame 0x102 (`X102Faults`, 1 = error). -/
structure X102Faults where
  fault_battery_voltage_deviation : Bool
  fault_high_battery_temperature : Bool
  fault_battery_current_deviation : Bool
  fault_battery_undervoltage : Bool
  fault_battery_overvoltage : Bool
deriving DecidableEq

/-- `Default` derive for `X102Faults`. -/
def X102Faults.default : X102Faults :=
  { fault_battery_voltage_deviation := false
    fault_high_battery_temperature := false
    fault_battery_current_deviation := false
    fault_battery_undervoltage := false
    fault_battery_overvoltage := false }

/-- Mirrors `impl From<u8> for X102Faults`. -/
def X102Faults.ofByte (value : Nat) : X102Faults :=
  { fault_battery_overvoltage := get_bit value 4
    fault_battery_undervoltage := get_bit value 3
    fault_battery_current_deviation := get_bit value 2
    fault_high_battery_temperature := get_bit value 1
    fault_battery_voltage_deviation := get_bit value 0 }

/-- Mirrors `impl From<X102Faults> for bool`: OR of the five fault bits. -/
def X102Faults.toBool (val : X102Faults) : Bool :=
  val.fault_battery_voltage_deviation
    || val.fault_high_battery_temperature
    || val.fault_battery_current_deviation
    || val.fault_battery_undervoltage
    || val.fault_battery_overvoltage

/-- Vehicle status flags of frame 0x102 (`X102Status`). -/
structure X102Status where
  status_discharge_compatible : Bool
  status_normal_stop_request : Bool
  status_vehicle : Bool
  status_charging_system : Bool
  status_vehicle_shifter_position : Bool
  status_vehicle_charging : Bool
deriving DecidableEq

/-- `Default` derive for `X102Status`. -/
def X102Status.default : X102Status :=
  { status_discharge_compatible := false
    status_normal_stop_request := false
    status_vehicle := false
    status_charging_system := false
    status_vehicle_shifter_position := false
    status_vehicle_charging := false }

/-- Mirrors `impl From<u8> for X102Status`. -/
def X102Status.ofByte (val : Nat) : X102Status :=
  { status_discharge_compatible := get_bit val 7
    status_normal_stop_request := get_bit val 4
    status_vehicle := get_bit val 3
    status_charging_system := get_bit val 2
    status_vehicle_shifter_position := get_bit val 1
    status_vehicle_charging := get_bit val 0 }

/-- Mirrors `impl From<X102Status> for u8`. -/
def X102Status.toByte (val : X102Status) : Nat :=
  (val.status_discharge_compatible.toNat <<< 7)
    ||| (val.status_normal_stop_request.toNat <<< 4)
    ||| (val.status_vehicle.toNat <<< 3)
    ||| (val.status_charging_system.toNat <<< 2)
    ||| (val.status_vehicle_shifter_position.toNat <<< 1)
    ||| val.status_vehicle_charging.toNat

/-- Vehicle CAN frame `X102` (`src/frames.rs`). -/
structure X102 where
  control_protocol_number_ev : Nat
  target_battery_voltage : Nat
  charging_current_request : Nat
  faults : X102Faults
  status : X102Status
  state_of_charge : Nat
deriving DecidableEq

/-- `Default` derive for `X102`. -/
def X102.default : X102 :=
  { control_protocol_number_ev := 0
    target_battery_voltage := 0
    charging_current_request := 0
    faults := X102Faults.default
    status := X102Status.default
    state_of_charge := 0 }

/-- Mirrors `X102::fault`. -/
def X102.fault (self : X102) : Bool :=
  self.faults.toBool

/-- Mirrors `X102::contactors_closed`. -/
def X102.contactors_closed (self : X102) : Bool :=
  !self.status.status_vehicle

/-- Mirrors `X102::can_discharge`. -/
def X102.can_discharge (self : X102) : Bool :=
  self.status.status_discharge_compatible

/-- Mirrors `X102::car_ready`. -/
def X102.car_ready (self : X102) : Bool :=
  self.status.status_vehicle_charging

/-- Mirrors `X102::can_close_contactors`; the source compares the `f32`
`target_battery_voltage` with `0.0`, modelled as `0 < _` on the exact
`Nat` value. -/
def X102.can_close_contactors (self : X102) : Bool :=
  !(self.status.status_normal_stop_request
      || self.status.status_charging_system
      || self.status.status_vehicle_shifter_position)
    && self.status.status_vehicle
    && self.status.status_vehicle_charging
    && decide (0 < self.target_battery_voltage)

/-- Mirrors `impl From<&T> for X102`. -/
def X102.fromFrame (frame : CanFrame) : Option X102 :=
  (data_sanity frame 0x102 8).map fun data =>
    { control_protocol_number_ev := data.getD 0 0
      target_battery_voltage := u16_from_le_bytes (data.getD 1 0) (data.getD 2 0)
      charging_current_request := data.getD 3 0
      faults := X102Faults.ofByte (data.getD 4 0)
      status := X102Status.ofByte (data.getD 5 0)
      state_of_charge := data.getD 6 0 }

/-- EVSE CAN frame `X108` (`src/frames.rs`); the `PhantomData` marker is
dropped. -/
structure X108 where
  available_output_current : Nat
  avaible_output_voltage : Nat
  welding_detection : Nat
  threshold_voltage : Nat
deriving DecidableEq

/-- Mirrors `X108::new` (`welding_detection: bool` is stored via
`bool::into`, i.e. 0 or 1). -/
def X108.new (available_output_current : Nat) (avaible_output_voltage : Nat)
    (welding_detection : Bool) (threshold_voltage : Nat) : X108 :=
  { available_output_current := available_output_current
    avaible_output_voltage := avaible_output_voltage
    welding_detection := welding_detection.toNat
    threshold_voltage := threshold_voltage }

/-- Station status flags of frame 0x109 (`X109Status`). -/
structure X109Status where
  status_charger_stop_control : Bool
  fault_charging_system_malfunction : Bool
  fault_battery_incompatibility : Bool
  status_vehicle_connector_lock : Bool
  fault_station_malfunction : Bool
  status_station : Bool
deriving DecidableEq

/-- `Default` derive for `X109Status`. -/
def X109Status.default : X109Status :=
  { status_charger_stop_control := false
    fault_charging_system_malfunction := false
    fault_battery_incompatibility := false
    status_vehicle_connector_lock := false
    fault_station_malfunction := false
    status_station := false }

/-- Mirrors `impl From<X109Status> for u8`. -/
def X109Status.toByte (val : X109Status) : Nat :=
  (val.status_charger_stop_control.toNat <<< 5)
    ||| (val.fault_charging_system_malfunction.toNat <<< 4)
    ||| (val.fault_battery_incompatibility.toNat <<< 3)
    ||| (val.status_vehicle_connector_lock.toNat <<< 2)
    ||| (val.fault_station_malfunction.toNat <<< 1)
    ||| val.status_station.toNat

/-- Mirrors `impl From<u8> for X109Status`. -/
def X109Status.ofByte (value : Nat) : X109Status :=
  { status_charger_stop_control := get_bit value 5
    fault_charging_system_malfunction := get_bit value 4
    fault_battery_incompatibility := get_bit value 3
    status_vehicle_connector_lock := get_bit value 2
    fault_station_malfunction := get_bit value 1
    status_station := get_bit value 0 }

/-- EVSE CAN frame `X109` (`src/frames.rs`); `output_voltage` is an `f32`
in the source, always holding a whole-number value cast from/to `u16`,
modelled as `Nat`. -/
structure X109 where
  status : X109Status
  control_protocol_number_qc : Nat
  output_voltage : Nat
  output_current : Nat
  discharge_compatitiblity : Bool
  remaining_charging_time_10s_bit : Nat
  remaining_charging_time_1min_bit : Nat
deriving DecidableEq

/-- Mirrors `X109::new`. -/
def X109.new (control_protocol_number_qc : Nat) (discharge_compatitiblity : Bool) : X109 :=
  { status := { X109Status.default with status_charger_stop_control := true }
    control_protocol_number_qc := control_protocol_number_qc
    discharge_compatitiblity := discharge_compatitiblity
    remaining_charging_time_10s_bit := 255
    remaining_charging_time_1min_bit := 255
    output_voltage := 0
    output_current := 0 }

/-- Vehicle CAN frame `X200` (`src/frames.rs`). -/
structure X200 where
  maximum_discharge_current : Nat
  minimum_discharge_voltage : Nat
  minimum_battery_discharge_level : Nat
  max_remaining_capacity_for_charging : Nat
deriving DecidableEq

/-- `Default` derive for `X200`. -/
def X200.default : X200 :=
  { maximum_discharge_current := 0
    minimum_discharge_voltage := 0
    minimum_battery_discharge_level := 0
    max_remaining_capacity_for_charging := 0 }

/-- Mirrors `impl From<&T> for X200` (inverted `255 - value` fields); the
source subtracts in `u8`, which never underflows since the bytes are ≤ 255,
matching `Nat` truncated subtraction. -/
def X200.fromFrame (frame : CanFrame) : Option X200 :=
  (data_sanity frame 0x200 8).map fun data =>
    { maximum_discharge_current := 255 - data.getD 0 0
      minimum_discharge_voltage := u16_from_le_bytes (data.getD 4 0) (data.getD 5 0)
      minimum_battery_discharge_level := 255 - data.getD 6 0
      max_remaining_capacity_for_charging := data.getD 7 0 }

/-- EVSE V2x CAN frame `X208` (`src/frames.rs`). -/
structure X208 where
  discharge_current : Nat
  input_voltage : Nat
  input_current : Nat
  lower_threshold_voltage : Nat
deriving DecidableEq

/-- Mirrors `X208::new`. -/
def X208.new (discharge_current : Nat) (input_voltage : Nat)
    (input_current : Nat) (lower_threshold_voltage : Nat) : X208 :=
  { discharge_current := discharge_current
    input_voltage := input_voltage
    input_current := input_current
    lower_threshold_voltage := lower_threshold_voltage }

/-- Mirrors `X208::to_can`: bytes 0 and 3 carry the inverted
(`0xff - value`) current fields, the voltages are little-endian. -/
def X208.to_can (self : X208) : Option CanFrame :=
  CanFrame.new (raw_to_id 0x208)
    [0xff - self.discharge_current,
     (u16_to_le_bytes self.input_voltage).1,
     (u16_to_le_bytes self.input_voltage).2,
     0xff - self.input_current,
     0, 0,
     (u16_to_le_bytes self.lower_threshold_voltage).1,
     (u16_to_le_bytes self.lower_threshold_voltage).2]

/-- Mirrors `X208::set_input_current`. -/
def X208.set_input_current (self : X208) (amps : Nat) : X208 :=
  { self with input_current := amps }

/-- Mirrors `impl From<&T> for X208` (undoes the `255 - value`
inversion). -/
def X208.fromFrame (frame : CanFrame) : Option X208 :=
  (data_sanity frame 0x208 8).map fun data =>
    { discharge_current := 255 - data.getD 0 0
      input_voltage := u16_from_le_bytes (data.getD 1 0) (data.getD 2 0)
      input_current := 255 - data.getD 3 0
      lower_threshold_voltage := u16_from_le_bytes (data.getD 6 0) (data.getD 7 0) }

/-- EVSE CAN frame `X209` (`src/frames.rs`). -/
structure X209 where
  sequence : Nat
  remaing_discharge_time : Nat
deriving DecidableEq

/-- Mirrors `X209::new`. -/
def X209.new (sequence : Nat) (remaing_discharge_time : Nat) : X209 :=
  { sequence := sequence
    remaing_discharge_time := remaing_discharge_time }

/-- The session aggregate `Chademo` (`src/lib.rs`). -/
structure Chademo where
  x100 : X100
  x101 : X101
  x102 : X102
  x108 : X108
  x109 : X109
  x200 : X200
  x208 : X208
  x209 : X209
deriving DecidableEq

/-- Mirrors `Chademo::new`. -/
def Chademo.new (max_amps : Nat) : Chademo :=
  { x100 := X100.default
    x101 := X101.default
    x102 := X102.default
    x200 := X200.default
    x109 := X109.new 2 true
    x108 := X108.new max_amps 500 true 435
    x208 := X208.new 0 500 max_amps 250
    x209 := X209.new 2 0 }

/-- Mirrors `Chademo::decode`. The `?` on `standard_id_to_raw` propagates
the extended-identifier error before any field is touched; a recognized
identifier dispatches to the record's decoder (whose assertion failure,
i.e. panic, is `none`); any other standard identifier yields
`DecodeBadId`. The returned pair is (call result, post state). -/
def Chademo.decode (self : Chademo) (frame : CanFrame) :
    Option (Except ChademoError Unit × Chademo) :=
  match standard_id_to_raw frame.id with
  | Except.error e => some (Except.error e, self)
  | Except.ok raw =>
    if raw = 0x100 then
      (X100.fromFrame frame).map fun r => (Except.ok (), { self with x100 := r })
    else if raw = 0x101 then
      (X101.fromFrame frame).map fun r => (Except.ok (), { self with x101 := r })
    else if raw = 0x102 then
      (X102.fromFrame frame).map fun r => (Except.ok (), { self with x102 := r })
    else if raw = 0x200 then
      (X200.fromFrame frame).map fun r => (Except.ok (), { self with x200 := r })
    else some (Except.error (ChademoError.DecodeBadId raw), self)

/-- Mirrors `Chademo::request_stop_charge`. -/
def Chademo.request_stop_charge (self : Chademo) : Chademo :=
  { self with x109 := { self.x109 with
      status := { self.x109.status with status_charger_stop_control := true } } }

/-- Mirrors `Chademo::fault`. -/
def Chademo.fault (self : Chademo) : Bool :=
  self.x102.fault

/-- Rust `as u8` applied to an `f32` holding an integral value: a
saturating cast onto 0..=255. -/
def f32_as_u8 (x : Int) : Nat :=
  (min (max x 0) 255).toNat

/-- Mirrors `Chademo::set_max_charge_amps`. -/
def Chademo.set_max_charge_amps (self : Chademo) (amps : Nat) : Chademo :=
  { self with x109 := { self.x109 with output_current := amps } }

/-- Mirrors `Chademo::set_max_discharge_amps`. -/
def Chademo.set_max_discharge_amps (self : Chademo) (amps : Nat) : Chademo :=
  { self with x208 := self.x208.set_input_current amps }

/-- Mirrors `Chademo::update_dynamic_charge_limits`. The source takes an
`f32`; integral inputs are modelled as `Int`, for which
`f32::is_sign_negative` is `< 0` and the `as u8` casts saturate
(`f32_as_u8`). -/
def Chademo.update_dynamic_charge_limits (self : Chademo) (amps : Int) : Chademo :=
  if amps < 0 then self.set_max_discharge_amps (f32_as_u8 (-1 * amps))
  else self.set_max_charge_amps (f32_as_u8 amps)

/-- Mirrors `Chademo::charge_start`. -/
def Chademo.charge_start (self : Chademo) : Chademo :=
  { self with x109 := { self.x109 with
      status := { self.x109.status with
        status_charger_stop_control := false
        status_station := true }
      remaining_charging_time_10s_bit := 255
      remaining_charging_time_1min_bit := 60 } }

/-- Mirrors `Chademo::charge_stop`. -/
def Chademo.charge_stop (self : Chademo) : Chademo :=
  { self with x109 := { self.x109 with
      output_voltage := 0
      output_current := 0
      remaining_charging_time_10s_bit := 0
      remaining_charging_time_1min_bit := 0
      status := { self.x109.status with
        fault_battery_incompatibility := false
        fault_charging_system_malfunction := false
        fault_station_malfunction := false } } }

/-- Mirrors `Chademo::plug_lock`. -/
def Chademo.plug_lock (self : Chademo) (state : Bool) : Chademo :=
  { self with x109 := { self.x109 with
      status := { self.x109.status with status_vehicle_connector_lock := state } } }

/-- The `canCloseContactors` predicate exactly as the spec (§4.3) words
it, for comparison against the source's `X102.can_close_contactors`; the
spec demands the vehicle-contactors-open bit (`status_vehicle`, bit 3) be
FALSE. -/
def canCloseContactorsSpec (x : X102) : Bool :=
  !x.status.status_normal_stop_request
    && !x.status.status_charging_system
    && !x.status.status_vehicle_shifter_position
    && !x.status.status_vehicle
    && x.status.status_vehicle_charging
    && decide (0 < x.target_battery_voltage)

/-- A decode call from state `s` to state `s'` on frame `f` left every
aggregate field unchanged except possibly the single field whose record
type matches `f`'s identifier. -/
def decode_touches_only (s s' : Chademo) (f : CanFrame) : Prop :=
  (s'.x100 = s.x100 ∨ f.id = CanId.Standard 0x100)
  ∧ (s'.x101 = s.x101 ∨ f.id = CanId.Standard 0x101)
  ∧ (s'.x102 = s.x102 ∨ f.id = CanId.Standard 0x102)
  ∧ (s'.x200 = s.x200 ∨ f.id = CanId.Standard 0x200)
  ∧ s'.x108 = s.x108 ∧ s'.x109 = s.x109 ∧ s'.x208 = s.x208 ∧ s'.x209 = s.x209

/-- Claim C1, counterexample: for the 0x102 record decoded from payload
`[0x02,0x9A,0x01,0x00,0x00,0xC1,0x56,0x00]` (status byte 0xC1: bit 3
clear, bit 0 set, target voltage 410 > 0) the spec's wording of
`canCloseContactors` (contactors-open bit false) yields `true`, but the
source's `can_close_contactors`, which requires the contactors-open bit
(`status_vehicle`, bit 3) to be TRUE, yields `false`. -/
theorem can_close_contactors_bit3_cex :
    ((X102.fromFrame ⟨CanId.Standard 0x102, [0x02, 0x9A, 0x01, 0x00, 0x00, 0xC1, 0x56, 0x00]⟩).map
        X102.can_close_contactors = some false)
  ∧ ((X102.fromFrame ⟨CanId.Standard 0x102, [0x02, 0x9A, 0x01, 0x00, 0x00, 0xC1, 0x56, 0x00]⟩).map
        canCloseContactorsSpec = some true) := by decide

/-- Claim C1 (amended): `can_close_contactors` holds iff the
normal-stop-request, charging-system-fault and shifter-not-parked bits are
all clear, the vehicle-contactors-open bit (`status_vehicle`, decoded from
bit 3 of the status byte — second conjunct) is SET, the charging-enabled
bit is set, and the target battery voltage is strictly positive. -/
theorem can_close_contactors_characterization :
    (∀ x : X102, x.can_close_contactors = true ↔
      (x.status.status_normal_stop_request = false
        ∧ x.status.status_charging_system = false
        ∧ x.status.status_vehicle_shifter_position = false
        ∧ x.status.status_vehicle = true
        ∧ x.status.status_vehicle_charging = true
        ∧ 0 < x.target_battery_voltage))
  ∧ (∀ b : Nat, (X102Status.ofByte b).status_vehicle = get_bit b 3) := by
  constructor
  · intro x
    simp [X102.can_close_contactors, Bool.or_eq_true, Bool.and_eq_true,
      Bool.not_eq_true', decide_eq_true_iff]
    tauto
  · intro b
    rfl

/-- Claim C2: decoding the 0x102 frame with payload
`[0x02,0x9A,0x01,0x00,0x00,0xC9,0x56,0x00]` (status byte 0xC9) succeeds
and the resulting record satisfies `can_close_contactors`. -/
theorem x102_scenario_b_can_close :
    (X102.fromFrame ⟨CanId.Standard 0x102, [0x02, 0x9A, 0x01, 0x00, 0x00, 0xC9, 0x56, 0x00]⟩).map
      X102.can_close_contactors = some true := by decide

/-- Claim C5: the aggregate's `fault` predicate is true iff at least one
of the five decoded vehicle fault bits is set (and hence false iff all
five are clear); the OR is symmetric in the five, so no bit is
privileged. -/
theorem fault_or_law :
    ∀ c : Chademo, c.fault = true ↔
      (c.x102.faults.fault_battery_overvoltage = true
        ∨ c.x102.faults.fault_battery_undervoltage = true
        ∨ c.x102.faults.fault_battery_current_deviation = true
        ∨ c.x102.faults.fault_high_battery_temperature = true
        ∨ c.x102.faults.fault_battery_voltage_deviation = true) := by
  intro c
  simp [Chademo.fault, X102.fault, X102Faults.toBool, Bool.or_eq_true]
  tauto

/-- Claim C9, counterexample: after `charge_start` the coarse-granularity
(1-minute) remaining-time field holds 60, not the maximum representable
value 255 that the claim asserts for the coarse unit. -/
theorem charge_start_coarse_sentinel_cex :
    ((Chademo.new 16).charge_start).x109.remaining_charging_time_1min_bit = 60
  ∧ (60 : Nat) ≠ 255 := by decide

/-- Claim C9 (amended): after `charge_start` the stop-control bit is
false, the station-active bit is true, the FINE-granularity (10-second)
remaining-time field holds its maximum value 255, and the
COARSE-granularity (1-minute) field holds the fixed constant 60. -/
theorem charge_start_effect (s : Chademo) :
    (s.charge_start).x109.status.status_charger_stop_control = false
  ∧ (s.charge_start).x109.status.status_station = true
  ∧ (s.charge_start).x109.remaining_charging_time_10s_bit = 255
  ∧ (s.charge_start).x109.remaining_charging_time_1min_bit = 60 :=
  ⟨rfl, rfl, rfl, rfl⟩

/-- Claim C10: `charge_stop` zeroes the X109 output voltage, output
current and both remaining-time fields and clears the three station-side
fault bits, while the stop-control, station-active and connector-lock bits
and every other field of the aggregate keep their previous values — in
particular `charge_stop` alone never asserts stop-control. -/
theorem charge_stop_effect (s : Chademo) :
    (s.charge_stop).x109.output_voltage = 0
  ∧ (s.charge_stop).x109.output_current = 0
  ∧ (s.charge_stop).x109.remaining_charging_time_10s_bit = 0
  ∧ (s.charge_stop).x109.remaining_charging_time_1min_bit = 0
  ∧ (s.charge_stop).x109.status.fault_charging_system_malfunction = false
  ∧ (s.charge_stop).x109.status.fault_battery_incompatibility = false
  ∧ (s.charge_stop).x109.status.fault_station_malfunction = false
  ∧ (s.charge_stop).x109.status.status_charger_stop_control
      = s.x109.status.status_charger_stop_control
  ∧ (s.charge_stop).x109.status.status_station = s.x109.status.status_station
  ∧ (s.charge_stop).x109.status.status_vehicle_connector_lock
      = s.x109.status.status_vehicle_connector_lock
  ∧ (s.charge_stop).x109.control_protocol_number_qc = s.x109.control_protocol_number_qc
  ∧ (s.charge_stop).x109.discharge_compatitiblity = s.x109.discharge_compatitiblity
  ∧ (s.charge_stop).x100 = s.x100
  ∧ (s.charge_stop).x101 = s.x101
  ∧ (s.charge_stop).x102 = s.x102
  ∧ (s.charge_stop).x108 = s.x108
  ∧ (s.charge_stop).x200 = s.x200
  ∧ (s.charge_stop).x208 = s.x208
  ∧ (s.charge_stop).x209 = s.x209 :=
  ⟨rfl, rfl, rfl, rfl, rfl, rfl, rfl, rfl, rfl, rfl, rfl, rfl, rfl, rfl, rfl, rfl, rfl,
    rfl, rfl⟩

/-- Claim C6: encoding any in-range X208 record and decoding the resulting
frame recovers all four field values (first conjunct); for the record
`(1, 500, 16, 250)` the encoded payload has byte 0 = 0xFF − 1 and
byte 3 = 0xFF − 16, and decoding recovers the original values (second
conjunct). -/
theorem x208_roundtrip (dc iv ic tv : Nat)
    (h1 : dc < 256) (h2 : iv < 65536) (h3 : ic < 256) (h4 : tv < 65536) :
    (∃ fr : CanFrame, (X208.new dc iv ic tv).to_can = some fr
        ∧ X208.fromFrame fr = some (X208.new dc iv ic tv))
  ∧ (∃ fr : CanFrame, (X208.new 1 500 16 250).to_can = some fr
        ∧ fr.data.getD 0 0 = 0xff - 1
        ∧ fr.data.getD 3 0 = 0xff - 16
        ∧ X208.fromFrame fr = some (X208.new 1 500 16 250)) := by
  constructor
  · refine ⟨⟨CanId.Standard 0x208,
      [0xff - dc, iv % 256, (iv / 256) % 256, 0xff - ic, 0, 0, tv % 256, (tv / 256) % 256]⟩,
      ?_, ?_⟩
    · simp [X208.to_can, X208.new, CanFrame.new, u16_to_le_bytes, raw_to_id]
    · simp [X208.fromFrame, X208.new, data_sanity, raw_to_id, u16_from_le_bytes,
        X208.mk.injEq]
      omega
  · exact ⟨⟨CanId.Standard 0x208, [254, 244, 1, 239, 0, 0, 250, 0]⟩,
      by decide, by decide, by decide, by decide⟩

/-- Witness for claim C6, instantiated at the record `(1, 500, 16, 250)`
of Scenario D. -/
theorem x208_roundtrip_witness :
    (∃ fr : CanFrame, (X208.new 1 500 16 250).to_can = some fr
        ∧ X208.fromFrame fr = some (X208.new 1 500 16 250))
  ∧ (∃ fr : CanFrame, (X208.new 1 500 16 250).to_can = some fr
        ∧ fr.data.getD 0 0 = 0xff - 1
        ∧ fr.data.getD 3 0 = 0xff - 16
        ∧ X208.fromFrame fr = some (X208.new 1 500 16 250)) :=
  x208_roundtrip 1 500 16 250 (by decide) (by decide) (by decide) (by decide)

set_option maxRecDepth 4000 in
/-- Claim C7: for every byte whose set bits lie in the defined positions
(mask 0x9F = bits 0,1,2,3,4,7 for the X102 status byte; mask 0x3F = bits
0..5 for the X109 status byte), converting to the status record and back
yields the byte; and in the other direction, converting any status record
to a byte and back yields the record. -/
theorem status_byte_roundtrip :
    (∀ b, b < 256 →
        ((b &&& 0x9F = b) → X102Status.toByte (X102Status.ofByte b) = b)
        ∧ ((b &&& 0x3F = b) → X109Status.toByte (X109Status.ofByte b) = b))
  ∧ (∀ s : X102Status, X102Status.ofByte s.toByte = s)
  ∧ (∀ s : X109Status, X109Status.ofByte s.toByte = s) := by
  refine ⟨by decide, ?_, ?_⟩
  · intro s
    obtain ⟨a, b, c, d, e, f⟩ := s
    cases a <;> cases b <;> cases c <;> cases d <;> cases e <;> cases f <;> decide
  · intro s
    obtain ⟨a, b, c, d, e, f⟩ := s
    cases a <;> cases b <;> cases c <;> cases d <;> cases e <;> cases f <;> decide

/-- Witness for claim C7 at the fully-populated defined-bit bytes 0x9F
(X102) and 0x3F (X109). -/
theorem status_byte_roundtrip_witness :
    X102Status.toByte (X102Status.ofByte 0x9F) = 0x9F
  ∧ X109Status.toByte (X109Status.ofByte 0x3F) = 0x3F :=
  ⟨(status_byte_roundtrip.1 0x9F (by decide)).1 (by decide),
   (status_byte_roundtrip.1 0x3F (by decide)).2 (by decide)⟩

/-- Claim C8, counterexample: passing 300 amps (non-negative) sets the
X109 output-current field to 255, not to the passed value 300 — the `as
u8` cast saturates. -/
theorem update_dynamic_charge_limits_saturation_cex :
    (Chademo.update_dynamic_charge_limits (Chademo.new 16) 300).x109.output_current = 255
  ∧ (255 : Nat) ≠ 300 := by decide

/-- Claim C8 (amended): a non-negative amps value sets the X109
output-current field to the value saturated onto 0..=255 (`f32_as_u8`)
and leaves the X208 record unchanged; a negative value sets the X208
discharge-input-current limit to its absolute value saturated onto
0..=255 and leaves the X109 record unchanged. -/
theorem update_dynamic_charge_limits_effect (s : Chademo) (amps : Int) :
    (0 ≤ amps →
        (s.update_dynamic_charge_limits amps).x109.output_current = f32_as_u8 amps
        ∧ (s.update_dynamic_charge_limits amps).x208 = s.x208)
  ∧ (amps < 0 →
        (s.update_dynamic_charge_limits amps).x208.input_current = f32_as_u8 (-amps)
        ∧ (s.update_dynamic_charge_limits amps).x109 = s.x109) := by
  constructor
  · intro h
    have hn : ¬amps < 0 := not_lt.mpr h
    simp [Chademo.update_dynamic_charge_limits, hn, Chademo.set_max_charge_amps]
  · intro h
    simp [Chademo.update_dynamic_charge_limits, h, Chademo.set_max_discharge_amps,
      X208.set_input_current, neg_one_mul]

/-- Witness for claim C8 at amps = 300 (charge direction) and amps = −5
(discharge direction). -/
theorem update_dynamic_charge_limits_effect_witness :
    ((Chademo.update_dynamic_charge_limits (Chademo.new 16) 300).x109.output_current
        = f32_as_u8 300
      ∧ (Chademo.update_dynamic_charge_limits (Chademo.new 16) 300).x208
        = (Chademo.new 16).x208)
  ∧ ((Chademo.update_dynamic_charge_limits (Chademo.new 16) (-5)).x208.input_current
        = f32_as_u8 (-(-5 : Int))
      ∧ (Chademo.update_dynamic_charge_limits (Chademo.new 16) (-5)).x109
        = (Chademo.new 16).x109) :=
  ⟨(update_dynamic_charge_limits_effect (Chademo.new 16) 300).1 (by decide),
   (update_dynamic_charge_limits_effect (Chademo.new 16) (-5)).2 (by decide)⟩

/-- Claim C3, counterexample: a frame carrying one of the four recognized
identifiers (0x100) but an empty payload does not make `decode` return
success — the in-record length assertion aborts the process (modelled as
`none`), so success is not returned for every frame with a recognized
identifier. -/
theorem decode_recognized_id_short_payload_aborts :
    Chademo.decode (Chademo.new 16) ⟨CanId.Standard 0x100, []⟩ = none := by decide

/-- Claim C3 (amended): `decode` returns `DecodeBadIdExt` exactly when the
frame carries an extended identifier, returns `DecodeBadId i` exactly when
it carries a standard identifier `i` other than 0x100/0x101/0x102/0x200,
and for those four identifiers returns success whenever the payload is 8
bytes (a recognized identifier with another payload length aborts inside
the record decoder); success occurs only for those four identifiers. -/
theorem decode_id_classification (s : Chademo) (f : CanFrame) :
    ((∃ i, f.id = CanId.Extended i) →
        s.decode f = some (Except.error ChademoError.DecodeBadIdExt, s))
  ∧ (∀ i, f.id = CanId.Standard i →
        ¬(i = 0x100 ∨ i = 0x101 ∨ i = 0x102 ∨ i = 0x200) →
        s.decode f = some (Except.error (ChademoError.DecodeBadId i), s))
  ∧ (∀ i, f.id = CanId.Standard i →
        (i = 0x100 ∨ i = 0x101 ∨ i = 0x102 ∨ i = 0x200) →
        f.data.length = 8 →
        ∃ s', s.decode f = some (Except.ok (), s'))
  ∧ (∀ e s', s.decode f = some (Except.error e, s') →
        (e = ChademoError.DecodeBadIdExt ↔ ∃ i, f.id = CanId.Extended i)
        ∧ (∀ i, e = ChademoError.DecodeBadId i →
            f.id = CanId.Standard i ∧ ¬(i = 0x100 ∨ i = 0x101 ∨ i = 0x102 ∨ i = 0x200)))
  ∧ (∀ s', s.decode f = some (Except.ok (), s') →
        ∃ i, f.id = CanId.Standard i ∧ (i = 0x100 ∨ i = 0x101 ∨ i = 0x102 ∨ i = 0x200)) := by
  obtain ⟨fid, fdata⟩ := f
  cases fid with
  | Extended j =>
    refine ⟨fun _ => rfl, ?_, ?_, ?_, ?_⟩
    · intro i hi; simp at hi
    · intro i hi; simp at hi
    · intro e s' h
      simp [Chademo.decode, standard_id_to_raw] at h
      obtain ⟨he, hs⟩ := h
      subst he
      refine ⟨by simp, ?_⟩
      intro i hi
      simp at hi
    · intro s' h
      simp [Chademo.decode, standard_id_to_raw] at h
  | Standard i =>
    refine ⟨?_, ?_, ?_, ?_, ?_⟩
    · rintro ⟨j, hj⟩; simp at hj
    · intro j hj hnj
      simp at hj
      subst hj
      push_neg at hnj
      obtain ⟨n0, n1, n2, n3⟩ := hnj
      simp [Chademo.decode, standard_id_to_raw, n0, n1, n2, n3]
    · intro j hj hmem hlen
      simp at hj
      subst hj
      simp at hlen
      rcases hmem with rfl | rfl | rfl | rfl
      · rcases hfx : X100.fromFrame ⟨CanId.Standard 0x100, fdata⟩ with _ | r
        · exfalso
          simp [X100.fromFrame, data_sanity, raw_to_id, hlen] at hfx
        · exact ⟨{ s with x100 := r }, by simp [Chademo.decode, standard_id_to_raw, hfx]⟩
      · rcases hfx : X101.fromFrame ⟨CanId.Standard 0x101, fdata⟩ with _ | r
        · exfalso
          simp [X101.fromFrame, data_sanity, raw_to_id, hlen] at hfx
        · exact ⟨{ s with x101 := r }, by simp [Chademo.decode, standard_id_to_raw, hfx]⟩
      · rcases hfx : X102.fromFrame ⟨CanId.Standard 0x102, fdata⟩ with _ | r
        · exfalso
          simp [X102.fromFrame, data_sanity, raw_to_id, hlen] at hfx
        · exact ⟨{ s with x102 := r }, by simp [Chademo.decode, standard_id_to_raw, hfx]⟩
      · rcases hfx : X200.fromFrame ⟨CanId.Standard 0x200, fdata⟩ with _ | r
        · exfalso
          simp [X200.fromFrame, data_sanity, raw_to_id, hlen] at hfx
        · exact ⟨{ s with x200 := r }, by simp [Chademo.decode, standard_id_to_raw, hfx]⟩
    · intro e s' h
      by_cases h0 : i = 0x100
      · subst h0; simp [Chademo.decode, standard_id_to_raw] at h
      by_cases h1 : i = 0x101
      · subst h1; simp [Chademo.decode, standard_id_to_raw] at h
      by_cases h2 : i = 0x102
      · subst h2; simp [Chademo.decode, standard_id_to_raw] at h
      by_cases h3 : i = 0x200
      · subst h3; simp [Chademo.decode, standard_id_to_raw] at h
      simp [Chademo.decode, standard_id_to_raw, h0, h1, h2, h3] at h
      obtain ⟨he, hs⟩ := h
      subst he
      refine ⟨by simp, ?_⟩
      intro j hj
      have hij : i = j := by
        injection hj
      subst hij
      exact ⟨rfl, by tauto⟩
    · intro s' h
      refine ⟨i, rfl, ?_⟩
      by_contra hmem
      push_neg at hmem
      obtain ⟨n0, n1, n2, n3⟩ := hmem
      simp [Chademo.decode, standard_id_to_raw, n0, n1, n2, n3] at h

/-- Witness for claim C3: a recognized-identifier 8-byte frame decodes
successfully, an extended-identifier frame yields `DecodeBadIdExt` with
the state unchanged, and an unrecognized standard identifier yields
`DecodeBadId` carrying that identifier with the state unchanged. -/
theorem decode_id_classification_witness :
    (∃ s', Chademo.decode (Chademo.new 16)
        ⟨CanId.Standard 0x102, [0x02, 0x9A, 0x01, 0x00, 0x00, 0xC9, 0x56, 0x00]⟩
        = some (Except.ok (), s'))
  ∧ Chademo.decode (Chademo.new 16) ⟨CanId.Extended 0x102, []⟩
      = some (Except.error ChademoError.DecodeBadIdExt, Chademo.new 16)
  ∧ Chademo.decode (Chademo.new 16) ⟨CanId.Standard 0x300, []⟩
      = some (Except.error (ChademoError.DecodeBadId 0x300), Chademo.new 16) :=
  ⟨(decode_id_classification (Chademo.new 16)
      ⟨CanId.Standard 0x102, [0x02, 0x9A, 0x01, 0x00, 0x00, 0xC9, 0x56, 0x00]⟩).2.2.1
      0x102 rfl (by tauto) (by decide),
   (decode_id_classification (Chademo.new 16) ⟨CanId.Extended 0x102, []⟩).1 ⟨0x102, rfl⟩,
   (decode_id_classification (Chademo.new 16) ⟨CanId.Standard 0x300, []⟩).2.1
      0x300 rfl (by decide)⟩

/-- Claim C4: whenever a `decode` call returns (it panics on a recognized
identifier with a wrong-length payload, and then no post-state exists),
every aggregate field other than the one matching the frame's identifier
is unchanged, and if the call returned an error the whole state is
unchanged. -/
theorem decode_frame_effect (s s' : Chademo) (f : CanFrame) (r : Except ChademoError Unit)
    (h : s.decode f = some (r, s')) :
    (r = Except.ok () ∨ s' = s) ∧ decode_touches_only s s' f := by
  obtain ⟨fid, fdata⟩ := f
  cases fid with
  | Extended j =>
    simp [Chademo.decode, standard_id_to_raw] at h
    obtain ⟨rfl, rfl⟩ := h
    exact ⟨Or.inr rfl, by simp [decode_touches_only]⟩
  | Standard i =>
    by_cases h0 : i = 0x100
    · subst h0
      simp [Chademo.decode, standard_id_to_raw] at h
      obtain ⟨rec, hrec, rfl, rfl⟩ := h
      exact ⟨Or.inl rfl, by simp [decode_touches_only]⟩
    by_cases h1 : i = 0x101
    · subst h1
      simp [Chademo.decode, standard_id_to_raw] at h
      obtain ⟨rec, hrec, rfl, rfl⟩ := h
      exact ⟨Or.inl rfl, by simp [decode_touches_only]⟩
    by_cases h2 : i = 0x102
    · subst h2
      simp [Chademo.decode, standard_id_to_raw] at h
      obtain ⟨rec, hrec, rfl, rfl⟩ := h
      exact ⟨Or.inl rfl, by simp [decode_touches_only]⟩
    by_cases h3 : i = 0x200
    · subst h3
      simp [Chademo.decode, standard_id_to_raw] at h
      obtain ⟨rec, hrec, rfl, rfl⟩ := h
      exact ⟨Or.inl rfl, by simp [decode_touches_only]⟩
    simp [Chademo.decode, standard_id_to_raw, h0, h1, h2, h3] at h
    obtain ⟨rfl, rfl⟩ := h
    exact ⟨Or.inr rfl, by simp [decode_touches_only]⟩

/-- Witness for claim C4 at an extended-identifier frame, whose decode
returns an error and leaves the aggregate unchanged. -/
theorem decode_frame_effect_witness :
    ((Except.error ChademoError.DecodeBadIdExt : Except ChademoError Unit) = Except.ok ()
        ∨ Chademo.new 16 = Chademo.new 16)
  ∧ decode_touches_only (Chademo.new 16) (Chademo.new 16) ⟨CanId.Extended 7, []⟩ :=
  decode_frame_effect (Chademo.new 16) (Chademo.new 16) ⟨CanId.Extended 7, []⟩
    (Except.error ChademoError.DecodeBadIdExt) rfl
